import Mathlib

set_option maxRecDepth 4000

/-!
Formal model of the DBN record framing core: the streaming decoder state
machine (python DbnDecoder over a growable cursor buffer), the non-owning
record view and its checked projection (RecordRef), and the CSV encode sink
contract (Encoder and the pretty field writers).

Byte buffers are modelled as lists of natural numbers; machine structs are
modelled at the byte level (a record is its framed byte slice, tagged with
its catalog type on projection).
-/

namespace DbnModel

/-- Byte buffers: lists of byte values. -/
abbrev Bytes := List Nat

/-- Semantics of writing through an in-memory cursor into a growable byte
vector at position pos (std io Cursor over a byte vector): when pos is past
the end the gap is filled with zero bytes, then the written bytes overwrite
or extend the vector from pos. Returns the new vector and cursor position. -/
def cursorWrite (buf : Bytes) (pos : Nat) (bytes : Bytes) : Bytes × Nat :=
  (((buf ++ List.replicate (pos - buf.length) 0).take pos ++ bytes ++
      (buf ++ List.replicate (pos - buf.length) 0).drop (pos + bytes.length)),
    pos + bytes.length)

/-- Outcome of an attempted metadata parse that did not succeed: the buffer
does not yet hold enough bytes, or the preamble is malformed. -/
inductive MetaErr
  | insufficient
  | malformed
deriving DecidableEq

/-- Little-endian 32-bit value from four bytes. -/
def u32le (a b c d : Nat) : Nat := a + 256 * b + 65536 * c + 16777216 * d

/-- Modelled from the spec: the Metadata Block decoder (MetadataDecoder) is
not among the given source files. Per the spec it is a versioned preamble
decoded exactly once from the buffer start, self-describing its own extent.
Modelled as a three-byte magic, a one-byte version, a four-byte little-endian
payload length, and the payload; success returns the payload and the number
of bytes consumed. -/
def parseMetadata (buf : Bytes) : Except MetaErr (Bytes × Nat) :=
  match buf with
  | m0 :: m1 :: m2 :: v :: l0 :: l1 :: l2 :: l3 :: rest =>
    if m0 = 68 ∧ m1 = 66 ∧ m2 = 78 ∧ v = 1 then
      (if u32le l0 l1 l2 l3 ≤ rest.length then
        Except.ok (rest.take (u32le l0 l1 l2 l3), 8 + u32le l0 l1 l2 l3)
      else Except.error MetaErr.insufficient)
    else Except.error MetaErr.malformed
  | _ => Except.error MetaErr.insufficient

/-- Modelled from the spec: the closed Record Catalog of twelve record
types. -/
inductive RecType
  | mbo
  | trade
  | mbp1
  | mbp10
  | ohlcv
  | instrumentDef
  | statusMsg
  | imbalance
  | stat
  | errorMsg
  | symbolMapping
  | systemMsg
deriving DecidableEq

/-- Modelled from the spec: the discriminant value accepted by each catalog
entry (the rtype constants are not among the given source files; the exact
numbers are fixed arbitrarily but distinctly). -/
def rtypeOf : RecType → Nat
  | .trade => 0
  | .mbp1 => 1
  | .mbp10 => 10
  | .ohlcv => 17
  | .statusMsg => 18
  | .instrumentDef => 19
  | .imbalance => 20
  | .errorMsg => 21
  | .symbolMapping => 22
  | .systemMsg => 23
  | .stat => 24
  | .mbo => 160

/-- Modelled from the spec: each catalog entry's static byte size (each
schema is a fixed-layout struct beginning with the 16-byte record header). -/
def staticSize : RecType → Nat
  | .trade => 48
  | .mbp1 => 80
  | .mbp10 => 368
  | .ohlcv => 56
  | .statusMsg => 48
  | .instrumentDef => 360
  | .imbalance => 112
  | .errorMsg => 80
  | .symbolMapping => 80
  | .systemMsg => 80
  | .stat => 64
  | .mbo => 56

/-- Modelled from the spec: membership of a raw discriminant in a type's
accepted set (the has_rtype impls are not among the given source files; each
entry accepts exactly its own discriminant). -/
def hasRtype (t : RecType) (r : Nat) : Bool := r == rtypeOf t

/-- Modelled from the spec: catalog lookup from a raw discriminant
(rtype_as_enum); discriminants outside the twelve-entry catalog are
unknown. -/
def catalogLookup (r : Nat) : Option RecType :=
  if r = 0 then some RecType.trade
  else if r = 1 then some RecType.mbp1
  else if r = 10 then some RecType.mbp10
  else if r = 17 then some RecType.ohlcv
  else if r = 18 then some RecType.statusMsg
  else if r = 19 then some RecType.instrumentDef
  else if r = 20 then some RecType.imbalance
  else if r = 21 then some RecType.errorMsg
  else if r = 22 then some RecType.symbolMapping
  else if r = 23 then some RecType.systemMsg
  else if r = 24 then some RecType.stat
  else if r = 160 then some RecType.mbo
  else none

/-- The record view of record_ref.rs: the header discriminant, the
self-declared record size in bytes (length words times four), and the
underlying byte slice. -/
structure RecordRef where
  rtype : Nat
  recordSize : Nat
  bytes : Bytes
deriving DecidableEq

/-- Result of RecordRef::get: a projected owned copy of the record, a
wrong-type miss (None), or the assertion failure (panic) raised when the
type matches but the declared record size is below the target struct
size. -/
inductive GetResult
  | found (bytes : Bytes)
  | wrongType
  | panicked
deriving DecidableEq

/-- RecordRef::get from record_ref.rs: when has returns true it asserts
record_size is at least the target struct size (panicking otherwise) and
returns the projection; when has returns false it returns None. The
projection is modelled as the owned copy of the first staticSize bytes of
the view. -/
def RecordRef.get (v : RecordRef) (t : RecType) : GetResult :=
  if hasRtype t v.rtype then
    (if staticSize t ≤ v.recordSize then GetResult.found (v.bytes.take (staticSize t))
     else GetResult.panicked)
  else GetResult.wrongType

/-- Modelled from the spec: RecordDecoder::decode_record_ref is not among
the given source files. Per the spec it peeks a 16-byte record header at the
read cursor (yielding nothing when fewer bytes remain), computes the
self-declared record size, and when that many bytes are buffered it
materializes a view over exactly those bytes; otherwise it yields nothing
and leaves the buffer untouched. -/
def decodeRecordRef (buf : Bytes) (pos : Nat) : Option RecordRef :=
  if buf.length - pos < 16 then none
  else if buf.length - pos < 4 * buf.getD pos 0 then none
  else some ⟨buf.getD (pos + 1) 0, 4 * buf.getD pos 0,
    (buf.drop pos).take (4 * buf.getD pos 0)⟩

/-- The dispatch table of the decode loop in python lib.rs: the eight
discriminants projected to concrete owned records; every other discriminant
falls to the catch-all arm. -/
def projectedType (r : Nat) : Option RecType :=
  if r = 0 then some RecType.trade
  else if r = 1 then some RecType.mbp1
  else if r = 10 then some RecType.mbp10
  else if r = 17 then some RecType.ohlcv
  else if r = 19 then some RecType.instrumentDef
  else if r = 21 then some RecType.errorMsg
  else if r = 22 then some RecType.symbolMapping
  else if r = 160 then some RecType.mbo
  else none

/-- An item produced by decode: the metadata block or a concrete owned
record. -/
inductive DbnItem
  | metadata (payload : Bytes)
  | record (t : RecType) (bytes : Bytes)
deriving DecidableEq

/-- Result of the record loop: normal completion with the accumulated items
and the final read cursor, a panic (with the cursor at the point of panic),
or fuel exhaustion (a record claiming size zero with an unprojected
discriminant would make the loop spin in place). -/
inductive LoopResult
  | finished (recs : List DbnItem) (endPos : Nat)
  | panicked (recs : List DbnItem) (atPos : Nat)
  | fuelOut
deriving DecidableEq

/-- The record loop of decode in python lib.rs: repeatedly frame a complete
record view, then dispatch on its discriminant — a projected type is
extracted with RecordRef::get (whose failure is a panic) and appended, any
other discriminant is consumed without being emitted. -/
def recLoop : Nat → Bytes → Nat → List DbnItem → LoopResult
  | 0, _, _, _ => LoopResult.fuelOut
  | fuel + 1, buf, pos, acc =>
    match decodeRecordRef buf pos with
    | none => LoopResult.finished acc pos
    | some ref =>
      match projectedType ref.rtype with
      | some t =>
        match ref.get t with
        | GetResult.found b =>
          recLoop fuel buf (pos + ref.recordSize) (acc ++ [DbnItem.record t b])
        | GetResult.wrongType => LoopResult.panicked acc (pos + ref.recordSize)
        | GetResult.panicked => LoopResult.panicked acc (pos + ref.recordSize)
      | none => recLoop fuel buf (pos + ref.recordSize) acc

/-- The streaming decoder state of python lib.rs: the cursor byte buffer,
the cursor position, and whether the metadata block has been decoded. -/
structure DbnDecoder where
  buffer : Bytes
  pos : Nat
  hasDecodedMetadata : Bool
deriving DecidableEq

/-- DbnDecoder::new. -/
def DbnDecoder.new : DbnDecoder := ⟨[], 0, false⟩

/-- DbnDecoder::write: appends through the cursor at its current position. -/
def DbnDecoder.write (d : DbnDecoder) (bytes : Bytes) : DbnDecoder :=
  ⟨(cursorWrite d.buffer d.pos bytes).1, (cursorWrite d.buffer d.pos bytes).2,
    d.hasDecodedMetadata⟩

/-- Caller-visible outcome of one decode call: a list of items returned
normally, or a panic propagating out of the call (in which case no items are
delivered). -/
inductive DecodeOutcome
  | items (xs : List DbnItem)
  | panicked
deriving DecidableEq

/-- DbnDecoder::decode from python lib.rs: saves the cursor position, seeks
to zero, decodes the metadata block once (on failure it restores the
position and returns an empty list), then runs the record loop and drains
the consumed prefix, leaving the cursor at the old read position. On a panic
the drain never runs and the items accumulated so far are lost. -/
def DbnDecoder.decode (d : DbnDecoder) : DecodeOutcome × DbnDecoder :=
  if d.hasDecodedMetadata then
    match recLoop (d.buffer.length + 1) d.buffer 0 [] with
    | LoopResult.finished recs endPos =>
      (DecodeOutcome.items recs, ⟨d.buffer.drop endPos, endPos, true⟩)
    | LoopResult.panicked _ atPos => (DecodeOutcome.panicked, ⟨d.buffer, atPos, true⟩)
    | LoopResult.fuelOut => (DecodeOutcome.panicked, d)
  else
    match parseMetadata d.buffer with
    | Except.error _ => (DecodeOutcome.items [], d)
    | Except.ok (md, consumed) =>
      match recLoop (d.buffer.length + 1) d.buffer consumed [] with
      | LoopResult.finished recs endPos =>
        (DecodeOutcome.items (DbnItem.metadata md :: recs),
          ⟨d.buffer.drop endPos, endPos, true⟩)
      | LoopResult.panicked _ atPos =>
        (DecodeOutcome.panicked, ⟨d.buffer, atPos, true⟩)
      | LoopResult.fuelOut => (DecodeOutcome.panicked, ⟨d.buffer, d.pos, true⟩)

/-- A row written by the CSV writer: the schema header row or one record's
data row. -/
inductive CsvRow (α : Type)
  | header (cols : List String)
  | data (rec : α)
deriving DecidableEq

/-- Modelled from the spec: the kind of error a record serialization can
produce at the sink — an I O error of broken-pipe kind, another I O error,
or a non I O csv error. -/
inductive CsvErrKind
  | ioBrokenPipe
  | ioOther
  | nonIo
deriving DecidableEq

/-- Result of serializing one record to the underlying csv writer. -/
inductive SerResult
  | ok
  | err (k : CsvErrKind)
deriving DecidableEq

/-- The error context attached on propagation: it identifies the offending
record. -/
structure EncodeErrCtx (α : Type) where
  offending : α
deriving DecidableEq

/-- Encoder::encode_record from encode/csv.rs: a successful write returns
Ok false (continue); a broken-pipe I O error is converted into Ok true (the
stop-early signal); any other error is propagated with the offending
record's identity attached. The serialization outcome of each record is
supplied by the outcome environment; a success appends the record's data
row. -/
def encode_record {α : Type} (outcome : α → SerResult) (w : List (CsvRow α)) (r : α) :
    List (CsvRow α) × Except (EncodeErrCtx α) Bool :=
  match outcome r with
  | SerResult.ok => (w ++ [CsvRow.data r], Except.ok false)
  | SerResult.err CsvErrKind.ioBrokenPipe => (w, Except.ok true)
  | SerResult.err CsvErrKind.ioOther => (w, Except.error ⟨r⟩)
  | SerResult.err CsvErrKind.nonIo => (w, Except.error ⟨r⟩)

/-- The shared loop body of encode_records and encode_stream: encode each
record in turn, returning success immediately on the stop-early signal and
propagating any error. -/
def encodeLoop {α : Type} (outcome : α → SerResult) :
    List (CsvRow α) → List α → List (CsvRow α) × Except (EncodeErrCtx α) Unit
  | w, [] => (w, Except.ok ())
  | w, r :: rest =>
    match encode_record outcome w r with
    | (w2, Except.ok true) => (w2, Except.ok ())
    | (w2, Except.ok false) => encodeLoop outcome w2 rest
    | (w2, Except.error e) => (w2, Except.error e)

/-- Encoder::encode_records from encode/csv.rs: writes the schema header row
first, then encodes the batch through the loop. -/
def encode_records {α : Type} (HEADERS : List String) (outcome : α → SerResult)
    (w : List (CsvRow α)) (rs : List α) :
    List (CsvRow α) × Except (EncodeErrCtx α) Unit :=
  encodeLoop outcome (w ++ [CsvRow.header HEADERS]) rs

/-- Encoder::encode_stream from encode/csv.rs: identical to encode_records
but consuming a lazy sequence; modelled over the sequence's list of
elements. -/
def encode_stream {α : Type} (HEADERS : List String) (outcome : α → SerResult)
    (w : List (CsvRow α)) (rs : List α) :
    List (CsvRow α) × Except (EncodeErrCtx α) Unit :=
  encodeLoop outcome (w ++ [CsvRow.header HEADERS]) rs

/-- Modelled from the spec: the undefined-price sentinel (a reserved integer
meaning undefined for price fields). -/
def UNDEF_PRICE : Int := 9223372036854775807

/-- Modelled from the spec: the undefined-timestamp sentinel (a reserved
integer meaning undefined for timestamp fields). -/
def UNDEF_TIMESTAMP : Nat := 18446744073709551615

/-- write_px_field from encode/csv/serialize.rs, returning the field text
written; the external pretty price formatter is abstracted as the fmtPx
parameter. -/
def write_px_field (fmtPx : Int → String) (PRETTY_PX : Bool) (px : Int) : String :=
  if PRETTY_PX then
    (if px = UNDEF_PRICE then "" else fmtPx px)
  else toString px

/-- write_ts_field from encode/csv/serialize.rs, returning the field text
written; the external calendar-time formatter is abstracted as the fmtTs
parameter. -/
def write_ts_field (fmtTs : Nat → String) (PRETTY_TS : Bool) (ts : Nat) : String :=
  if PRETTY_TS then
    (if ts = 0 ∨ ts = UNDEF_TIMESTAMP then "" else fmtTs ts)
  else toString ts

/-- A minimal valid metadata preamble: magic, version one, zero-length
payload. -/
def metaBytesA : Bytes := [68, 66, 78, 1, 0, 0, 0, 0]

/-- A complete well-formed Trade record: 48 bytes, declared length 12 words,
discriminant 0. -/
def tradeBytesA : Bytes := 12 :: 0 :: List.replicate 46 0

/-- A complete well-formed MBO record: 56 bytes, declared length 14 words,
discriminant 160. -/
def mboBytesB : Bytes := 14 :: 160 :: List.replicate 54 0

/-- A complete well-formed Status record: 48 bytes, declared length 12
words, discriminant 18. -/
def statusBytesC : Bytes := 12 :: 18 :: List.replicate 46 0

/-- A Status record whose declared length (8 words, 32 bytes) is below the
Status schema's 48-byte minimum, with exactly its declared 32 bytes
present. -/
def statusTruncD : Bytes := 8 :: 18 :: List.replicate 30 0

/-- A complete record with declared length 8 words (32 bytes) and the
discriminant 99, which is outside the record catalog. -/
def unknownBytesF : Bytes := 8 :: 99 :: List.replicate 30 0

/-- Eight zero bytes: long enough for a metadata preamble but with the wrong
magic, hence malformed. -/
def zeros8 : Bytes := List.replicate 8 0

/-- A Trade record whose declared length (8 words, 32 bytes) is below the
Trade schema's 48-byte minimum, with exactly its declared 32 bytes
present. -/
def tradeTruncG : Bytes := 8 :: 0 :: List.replicate 30 0

/-- A serialization-outcome environment over record identifiers: record 1
fails with a broken-pipe I O error, record 2 with another I O error, and
every other record serializes successfully. -/
def outcomeW : Nat → SerResult := fun n =>
  if n = 1 then SerResult.err CsvErrKind.ioBrokenPipe
  else if n = 2 then SerResult.err CsvErrKind.ioOther
  else SerResult.ok

set_option maxHeartbeats 1000000

/-- A discriminant the python decode loop projects determines the catalog
type whose accepted discriminant it is. -/
theorem projectedType_rtypeOf (r : Nat) (t : RecType) (h : projectedType r = some t) :
    rtypeOf t = r := by
  unfold projectedType at h
  split_ifs at h <;> simp only [Option.some.injEq] at h
  all_goals (subst_vars; rfl)

/-- A discriminant outside the record catalog is also outside the python
decode loop's projection table. -/
theorem catalogLookup_none_projected (r : Nat) (h : catalogLookup r = none) :
    projectedType r = none := by
  unfold projectedType
  split_ifs with h0 h1 h2 h3 h4 h5 h6 h7
  all_goals (first | rfl | (subst_vars; simp [catalogLookup] at h))

/-- When a full header and the whole declared record extent are buffered,
decodeRecordRef materializes the view over exactly the declared bytes. -/
theorem decodeRecordRef_some (buf : Bytes) (pos : Nat)
    (hhdr : 16 ≤ buf.length - pos)
    (hcomp : 4 * buf.getD pos 0 ≤ buf.length - pos) :
    decodeRecordRef buf pos = some ⟨buf.getD (pos + 1) 0, 4 * buf.getD pos 0,
      (buf.drop pos).take (4 * buf.getD pos 0)⟩ := by
  unfold decodeRecordRef
  rw [if_neg (by omega), if_neg (by omega)]

/-- A prefix of successfully serialized records passes through the bulk
encode loop, appending one data row per record. -/
theorem encodeLoop_ok_skips_front {α : Type} (outcome : α → SerResult) (pre : List α) :
    ∀ (w : List (CsvRow α)) (rest : List α), (∀ x ∈ pre, outcome x = SerResult.ok) →
    encodeLoop outcome w (pre ++ rest) =
      encodeLoop outcome (w ++ pre.map CsvRow.data) rest := by
  induction pre with
  | nil => intro w rest _; simp
  | cons a as ih =>
    intro w rest h
    have ha : outcome a = SerResult.ok := h a (by simp)
    simp only [List.cons_append, encodeLoop, encode_record, ha, List.append_eq]
    rw [ih (w ++ [CsvRow.data a]) rest (fun x hx => h x (by simp [hx]))]
    simp

/-- The bulk encode loop only ever appends rows to the writer. -/
theorem encodeLoop_rows_extend {α : Type} (outcome : α → SerResult) :
    ∀ (rs : List α) (w : List (CsvRow α)),
      ∃ added, (encodeLoop outcome w rs).1 = w ++ added := by
  intro rs
  induction rs with
  | nil => intro w; exact ⟨[], by simp [encodeLoop]⟩
  | cons r rest ih =>
    intro w
    cases h : outcome r with
    | ok =>
      obtain ⟨ad, had⟩ := ih (w ++ [CsvRow.data r])
      exact ⟨CsvRow.data r :: ad, by simp [encodeLoop, encode_record, h, had]⟩
    | err k =>
      cases k
      · exact ⟨[], by simp [encodeLoop, encode_record, h]⟩
      · exact ⟨[], by simp [encodeLoop, encode_record, h]⟩
      · exact ⟨[], by simp [encodeLoop, encode_record, h]⟩

/-- Claim C1, evaluated at a failing input. A valid metadata preamble
followed by one complete Trade record, fed in two chunks with a decode call
between them, does not decode to the metadata followed by the Trade record:
the first decode consumes the metadata and drains the buffer, but the
cursor position is not reset, so the second write pads the drained buffer
with eight zero bytes; the second decode then reads a header of zeros
(declared length zero, discriminant zero, a Trade) and panics in
RecordRef::get, delivering no record at all. -/
theorem c1_chunked_write_decode_loses_record :
    ((DbnDecoder.new.write metaBytesA).decode).1 =
      DecodeOutcome.items [DbnItem.metadata []] ∧
    ((((DbnDecoder.new.write metaBytesA).decode).2.write tradeBytesA).decode).1 =
      DecodeOutcome.panicked := by
  decide

/-- Claim C2, counterexample. A complete Status record, one of the twelve
catalog types, is buffered with metadata already decoded, yet decode
returns no items: the python dispatch projects only eight of the twelve
catalog types and silently drops Status, Imbalance, Stat and System
records. -/
theorem c2_counterexample_status_record_not_appended :
    ((DbnDecoder.mk statusBytesC 0 true).decode).1 = DecodeOutcome.items [] := by
  decide

/-- Claim C2, amended: whenever a complete record whose discriminant is one
of the eight types the python decoder projects (Trade, MBP-1, MBP-10,
OHLCV, InstrumentDef, Error, SymbolMapping, MBO) is buffered at the read
cursor and its declared size covers the projected struct, the decode loop
appends the concrete owned record to its result sequence and advances the
read cursor by the record's declared size. -/
theorem c2_amended_projected_record_appended (fuel : Nat) (buf : Bytes) (pos : Nat)
    (acc : List DbnItem) (t : RecType)
    (hhdr : 16 ≤ buf.length - pos)
    (hcomp : 4 * buf.getD pos 0 ≤ buf.length - pos)
    (hproj : projectedType (buf.getD (pos + 1) 0) = some t)
    (hsize : staticSize t ≤ 4 * buf.getD pos 0) :
    recLoop (fuel + 1) buf pos acc =
      recLoop fuel buf (pos + 4 * buf.getD pos 0)
        (acc ++ [DbnItem.record t
          (((buf.drop pos).take (4 * buf.getD pos 0)).take (staticSize t))]) := by
  have href := decodeRecordRef_some buf pos hhdr hcomp
  have hrt : rtypeOf t = buf.getD (pos + 1) 0 := projectedType_rtypeOf _ _ hproj
  have hbeq : (buf.getD (pos + 1) 0 == rtypeOf t) = true := by
    rw [← hrt]; simp
  simp only [recLoop, href, hproj, RecordRef.get, hasRtype, hbeq, eq_self_iff_true,
    if_true]
  rw [if_pos hsize]

/-- Claim C2 witness: the amended step at a concrete complete Trade
record. -/
theorem c2_amended_projected_record_appended_witness :
    recLoop 2 tradeBytesA 0 [] =
      recLoop 1 tradeBytesA (0 + 4 * tradeBytesA.getD 0 0)
        ([] ++ [DbnItem.record RecType.trade
          (((tradeBytesA.drop 0).take (4 * tradeBytesA.getD 0 0)).take
            (staticSize RecType.trade))]) :=
  c2_amended_projected_record_appended 1 tradeBytesA 0 [] RecType.trade (by decide)
    (by decide) (by decide) (by decide)

/-- Claim C3, evaluated at a failing input. With the metadata already
consumed by a previous decode call, writing the first 24 bytes of a 56-byte
MBO record and calling decode does not return zero records as the claim
requires: the undrained cursor position makes the write pad the buffer with
eight zero bytes, and decode panics on the resulting zero header instead of
waiting for the rest of the record. -/
theorem c3_split_record_decode_panics :
    ((((DbnDecoder.new.write metaBytesA).decode).2.write (mboBytesB.take 24)).decode).1 =
      DecodeOutcome.panicked := by
  decide

/-- Claim C4, counterexample. A complete record whose discriminant names
the catalog type Status but whose declared length (32 bytes) is below that
schema's 48-byte minimum, followed by a well-formed Trade record: decode
does not fail at all — the truncated Status record is skipped because
Status is not among the eight projected types, and the following Trade
record still decodes. -/
theorem c4_counterexample_truncated_status_not_terminal :
    ((DbnDecoder.mk (statusTruncD ++ tradeBytesA) 0 true).decode).1 =
      DecodeOutcome.items [DbnItem.record RecType.trade tradeBytesA] := by
  decide

/-- Claim C4, amended: when the buffered record's discriminant is one of
the eight types the python decoder projects and its declared length is
smaller than that schema's minimum byte size, decode panics (a terminal
failure delivering no records), the buffer is not drained, and calling
decode again fails identically, so no further records are ever decoded
from the stream. -/
theorem c4_amended_truncated_projected_terminal (buf : Bytes) (p : Nat) (t : RecType)
    (hhdr : 16 ≤ buf.length)
    (hcomp : 4 * buf.getD 0 0 ≤ buf.length)
    (hproj : projectedType (buf.getD 1 0) = some t)
    (htrunc : 4 * buf.getD 0 0 < staticSize t) :
    ((DbnDecoder.mk buf p true).decode).1 = DecodeOutcome.panicked ∧
    ((DbnDecoder.mk buf p true).decode).2.buffer = buf ∧
    (((DbnDecoder.mk buf p true).decode).2.decode).1 = DecodeOutcome.panicked := by
  have hstep : ∀ fuel, recLoop (fuel + 1) buf 0 [] =
      LoopResult.panicked [] (0 + 4 * buf.getD 0 0) := by
    intro fuel
    have href := decodeRecordRef_some buf 0 (by omega) (by omega)
    have hrt : rtypeOf t = buf.getD 1 0 := projectedType_rtypeOf _ _ hproj
    have hbeq : (buf.getD (0 + 1) 0 == rtypeOf t) = true := by
      rw [show (0 + 1 : Nat) = 1 from rfl, ← hrt]; simp
    have hproj2 : projectedType (buf.getD (0 + 1) 0) = some t := by
      rw [show (0 + 1 : Nat) = 1 from rfl]; exact hproj
    simp only [recLoop, href, hproj2, RecordRef.get, hasRtype, hbeq, eq_self_iff_true,
      if_true]
    rw [if_neg (by omega)]
  have hdec : (DbnDecoder.mk buf p true).decode =
      (DecodeOutcome.panicked, ⟨buf, 0 + 4 * buf.getD 0 0, true⟩) := by
    simp only [DbnDecoder.decode, hstep buf.length, eq_self_iff_true, if_true]
  have hdec2 : (DbnDecoder.mk buf (0 + 4 * buf.getD 0 0) true).decode =
      (DecodeOutcome.panicked, ⟨buf, 0 + 4 * buf.getD 0 0, true⟩) := by
    simp only [DbnDecoder.decode, hstep buf.length, eq_self_iff_true, if_true]
  exact ⟨by rw [hdec], by rw [hdec], by rw [hdec]; exact congrArg Prod.fst hdec2⟩

/-- Claim C4 witness: the amended terminal behaviour at a concrete
truncated Trade record. -/
theorem c4_amended_truncated_projected_terminal_witness :
    ((DbnDecoder.mk tradeTruncG 5 true).decode).1 = DecodeOutcome.panicked ∧
    ((DbnDecoder.mk tradeTruncG 5 true).decode).2.buffer = tradeTruncG ∧
    (((DbnDecoder.mk tradeTruncG 5 true).decode).2.decode).1 = DecodeOutcome.panicked :=
  c4_amended_truncated_projected_terminal tradeTruncG 5 RecType.trade (by decide)
    (by decide) (by decide) (by decide)

/-- Claim C5: a complete buffered record whose discriminant is outside the
record catalog but whose declared length is covered by the buffer is
skipped by the decode loop: nothing is appended, no error is raised, and
the loop continues at the cursor advanced past the record, so every
subsequent well-formed record still decodes exactly as it would have. -/
theorem c5_unknown_rtype_skipped (fuel : Nat) (buf : Bytes) (pos : Nat)
    (acc : List DbnItem)
    (hhdr : 16 ≤ buf.length - pos)
    (hcomp : 4 * buf.getD pos 0 ≤ buf.length - pos)
    (hcat : catalogLookup (buf.getD (pos + 1) 0) = none) :
    recLoop (fuel + 1) buf pos acc = recLoop fuel buf (pos + 4 * buf.getD pos 0) acc := by
  have href := decodeRecordRef_some buf pos hhdr hcomp
  have hproj := catalogLookup_none_projected _ hcat
  simp only [recLoop, href, hproj]

/-- Claim C5 witness: the skip step at a concrete record with the unknown
discriminant 99 followed by a Trade record. -/
theorem c5_unknown_rtype_skipped_witness :
    recLoop 2 (unknownBytesF ++ tradeBytesA) 0 [] =
      recLoop 1 (unknownBytesF ++ tradeBytesA)
        (0 + 4 * (unknownBytesF ++ tradeBytesA).getD 0 0) [] :=
  c5_unknown_rtype_skipped 1 (unknownBytesF ++ tradeBytesA) 0 [] (by decide)
    (by decide) (by decide)

/-- Claim C6, counterexample. Eight zero bytes are long enough for a
metadata preamble but malformed (wrong magic); decode on them returns
normally with an empty item list and untouched state — no error of any kind
reaches the caller (the message is only printed), contrary to the claim
that an error is reported on that call. -/
theorem c6_counterexample_malformed_metadata_returns_empty :
    (DbnDecoder.new.write zeros8).decode =
      (DecodeOutcome.items [], DbnDecoder.new.write zeros8) ∧
    parseMetadata ((DbnDecoder.new.write zeros8).buffer) =
      Except.error MetaErr.malformed ∧
    ((DbnDecoder.new.write zeros8).decode).1 ≠ DecodeOutcome.panicked := by
  exact ⟨by decide, rfl, by decide⟩

/-- Claim C6, amended: when the decoder is awaiting metadata and the
buffered bytes do not parse as a metadata block, decode returns an empty
item sequence with no error surfaced to the caller, the decoder state —
buffer, cursor position and awaiting-metadata flag — is unchanged, and
calling decode again on the same buffered bytes returns the identical empty
result. -/
theorem c6_amended_malformed_metadata_state_unchanged (d : DbnDecoder) (e : MetaErr)
    (hmd : d.hasDecodedMetadata = false)
    (hp : parseMetadata d.buffer = Except.error e) :
    d.decode = (DecodeOutcome.items [], d) ∧
    (d.decode).2.decode = (DecodeOutcome.items [], d) := by
  have h1 : d.decode = (DecodeOutcome.items [], d) := by
    simp [DbnDecoder.decode, hmd, hp]
  exact ⟨h1, by rw [h1]; exact h1⟩

/-- Claim C6 witness: the amended behaviour at the concrete malformed
preamble of eight zero bytes. -/
theorem c6_amended_malformed_metadata_state_unchanged_witness :
    (DbnDecoder.mk zeros8 8 false).decode =
      (DecodeOutcome.items [], DbnDecoder.mk zeros8 8 false) ∧
    ((DbnDecoder.mk zeros8 8 false).decode).2.decode =
      (DecodeOutcome.items [], DbnDecoder.mk zeros8 8 false) :=
  c6_amended_malformed_metadata_state_unchanged (DbnDecoder.mk zeros8 8 false)
    MetaErr.malformed rfl rfl

/-- Claim C7: for every record view and target catalog type, get returns
the projected record exactly when the view has the target's discriminant
and its declared record size covers the target struct; it returns the
wrong-type miss exactly when the discriminant does not match; and it panics
exactly when the discriminant matches but the declared size is too
small. -/
theorem c7_get_trichotomy (v : RecordRef) (t : RecType) :
    ((∃ b, v.get t = GetResult.found b) ↔
      (hasRtype t v.rtype = true ∧ staticSize t ≤ v.recordSize)) ∧
    (v.get t = GetResult.wrongType ↔ hasRtype t v.rtype = false) ∧
    (v.get t = GetResult.panicked ↔
      (hasRtype t v.rtype = true ∧ v.recordSize < staticSize t)) := by
  unfold RecordRef.get
  by_cases h1 : hasRtype t v.rtype = true
  · by_cases h2 : staticSize t ≤ v.recordSize
    · refine ⟨?_, ?_, ?_⟩
      · simp [h1, h2]
      · simp [h1, h2]
      · simp [h1, h2]
    · refine ⟨?_, ?_, ?_⟩
      · simp [h1, h2]
      · simp [h1, h2]
      · simp [h1, h2]
        omega
  · refine ⟨?_, ?_, ?_⟩
    · simp [h1]
    · simp [h1]
    · simp [h1]

/-- Claim C8: with pretty price enabled the undefined-price sentinel is
written as an empty field and any other price through the price formatter;
with it disabled every price, the sentinel included, is written as its
literal integer. With pretty timestamp enabled a zero or undefined
timestamp is written as an empty field; with it disabled as its literal
integer. -/
theorem c8_sentinel_field_rendering (fmtPx : Int → String) (fmtTs : Nat → String)
    (px : Int) (ts : Nat) :
    write_px_field fmtPx true UNDEF_PRICE = "" ∧
    (px ≠ UNDEF_PRICE → write_px_field fmtPx true px = fmtPx px) ∧
    write_px_field fmtPx false px = toString px ∧
    write_ts_field fmtTs true 0 = "" ∧
    write_ts_field fmtTs true UNDEF_TIMESTAMP = "" ∧
    write_ts_field fmtTs false ts = toString ts := by
  refine ⟨?_, ?_, ?_, ?_, ?_, ?_⟩
  · simp [write_px_field]
  · intro h; simp [write_px_field, h]
  · simp [write_px_field]
  · simp [write_ts_field]
  · simp [write_ts_field]
  · simp [write_ts_field]

/-- Claim C8 witness: the pretty and literal renderings at concrete
inputs. -/
theorem c8_sentinel_field_rendering_witness :
    write_px_field (fun _ => "1.5") true 5 = "1.5" ∧
    write_ts_field (fun _ => "t") false 7 = toString 7 :=
  ⟨(c8_sentinel_field_rendering (fun _ => "1.5") (fun _ => "t") 5 7).2.1 (by decide),
    (c8_sentinel_field_rendering (fun _ => "1.5") (fun _ => "t") 5 7).2.2.2.2.2⟩

/-- Claim C9: encode_record returns the stop-early signal exactly when the
record's serialization fails with a broken-pipe I O error; in that case
encode_records and encode_stream stop encoding and return success, having
written only the rows before the failure; any other serialization error is
propagated as a failure carrying the identity of the offending record. -/
theorem c9_broken_pipe_stop_early {α : Type} (outcome : α → SerResult)
    (HEADERS : List String) (w : List (CsvRow α)) (r : α) (pre post : List α) :
    ((encode_record outcome w r).2 = Except.ok true ↔
      outcome r = SerResult.err CsvErrKind.ioBrokenPipe) ∧
    ((∀ x ∈ pre, outcome x = SerResult.ok) →
      outcome r = SerResult.err CsvErrKind.ioBrokenPipe →
      (encode_records HEADERS outcome w (pre ++ r :: post)).2 = Except.ok () ∧
      (encode_stream HEADERS outcome w (pre ++ r :: post)).2 = Except.ok () ∧
      (encode_records HEADERS outcome w (pre ++ r :: post)).1 =
        (w ++ [CsvRow.header HEADERS]) ++ pre.map CsvRow.data) ∧
    ((∀ x ∈ pre, outcome x = SerResult.ok) → ∀ k, k ≠ CsvErrKind.ioBrokenPipe →
      outcome r = SerResult.err k →
      (encode_records HEADERS outcome w (pre ++ r :: post)).2 =
        Except.error ⟨r⟩) := by
  refine ⟨?_, ?_, ?_⟩
  · cases h : outcome r with
    | ok => simp [encode_record, h]
    | err k => cases k <;> simp [encode_record, h]
  · intro hpre hr
    unfold encode_records encode_stream
    rw [encodeLoop_ok_skips_front outcome pre _ (r :: post) hpre]
    refine ⟨?_, ?_, ?_⟩ <;> simp [encodeLoop, encode_record, hr]
  · intro hpre k hk hr
    unfold encode_records
    rw [encodeLoop_ok_skips_front outcome pre _ (r :: post) hpre]
    cases k with
    | ioBrokenPipe => exact absurd rfl hk
    | ioOther => simp [encodeLoop, encode_record, hr]
    | nonIo => simp [encodeLoop, encode_record, hr]

/-- Claim C9 witness: a concrete batch where record 1 hits a broken pipe
(the bulk encode succeeds silently) and one where record 2 hits another I O
error (the failure identifies record 2). -/
theorem c9_broken_pipe_stop_early_witness :
    (encode_records ["a"] outcomeW [] ([0] ++ 1 :: [5])).2 = Except.ok () ∧
    (encode_records ["a"] outcomeW [] ([0] ++ 2 :: [5])).2 =
      Except.error ⟨2⟩ :=
  ⟨((c9_broken_pipe_stop_early outcomeW ["a"] [] 1 [0] [5]).2.1 (by decide)
      (by decide)).1,
    (c9_broken_pipe_stop_early outcomeW ["a"] [] 2 [0] [5]).2.2 (by decide)
      CsvErrKind.ioOther (by decide) (by decide)⟩

/-- Claim C10: encode_records and encode_stream write the schema header row
before examining their input — an empty batch or stream still produces
exactly the header row, any batch's output starts with the header row, and
two successive bulk calls on the same writer produce two header rows. -/
theorem c10_header_row_always_written {α : Type} (HEADERS : List String)
    (outcome : α → SerResult) (w : List (CsvRow α)) (rs : List α) :
    (encode_records HEADERS outcome w []).1 = w ++ [CsvRow.header HEADERS] ∧
    (encode_stream HEADERS outcome w []).1 = w ++ [CsvRow.header HEADERS] ∧
    (∃ rest, (encode_records HEADERS outcome w rs).1 =
      w ++ CsvRow.header HEADERS :: rest) ∧
    (∃ rest, (encode_stream HEADERS outcome w rs).1 =
      w ++ CsvRow.header HEADERS :: rest) ∧
    (encode_records HEADERS outcome ((encode_records HEADERS outcome w []).1) []).1 =
      w ++ [CsvRow.header HEADERS, CsvRow.header HEADERS] := by
  refine ⟨by simp [encode_records, encodeLoop], by simp [encode_stream, encodeLoop],
    ?_, ?_, by simp [encode_records, encodeLoop]⟩
  · obtain ⟨ad, had⟩ := encodeLoop_rows_extend outcome rs (w ++ [CsvRow.header HEADERS])
    exact ⟨ad, by simp [encode_records, had]⟩
  · obtain ⟨ad, had⟩ := encodeLoop_rows_extend outcome rs (w ++ [CsvRow.header HEADERS])
    exact ⟨ad, by simp [encode_stream, had]⟩

end DbnModel

